import Mathlib

/-!
Verification development for the CcardFinder database library
(`src/libs/database/timezone.ts` and `src/libs/database/index.ts`).

Instants are modelled as integer seconds since the Unix epoch
(`1970-01-01T00:00:00Z`).  Timezone offsets follow the JavaScript
`Date.prototype.getTimezoneOffset` convention: minutes of UTC minus local
time, so America/Chicago in winter has offset `360` (GMT-6) and in summer
`300` (GMT-5).

All integer division below is Lean's `Int` division `/` with a positive
literal divisor, which rounds toward negative infinity (Euclidean
division), matching the calendar arithmetic's needs on both sides of the
epoch.
-/

namespace CcardFinder

/-! ## Proleptic Gregorian calendar arithmetic

Models the calendar underlying ECMAScript `Date`.  `civilFromDays` maps a
day count since 1970-01-01 to a civil date `(year, month, day)` with
`month ∈ [1,12]`; `daysFromCivil` is its inverse. -/

/-- 400-year era of a (shifted) day number. -/
def cfdEra (z : Int) : Int := (z + 719468) / 146097

/-- Day of era, in `[0, 146096]`. -/
def cfdDoe (z : Int) : Int := (z + 719468) % 146097

/-- Year of era, in `[0, 399]`. -/
def cfdYoe (z : Int) : Int :=
  (cfdDoe z - cfdDoe z / 1460 + cfdDoe z / 36524 - cfdDoe z / 146096) / 365

/-- Day of the March-based year, in `[0, 365]`. -/
def cfdDoy (z : Int) : Int :=
  cfdDoe z - (365 * cfdYoe z + cfdYoe z / 4 - cfdYoe z / 100)

/-- March-based month index, in `[0, 11]` (0 = March). -/
def cfdMp (z : Int) : Int := (5 * cfdDoy z + 2) / 153

/-- Day of month of a day number. -/
def cfdDay (z : Int) : Int := cfdDoy z - (153 * cfdMp z + 2) / 5 + 1

/-- Month (1 = January … 12 = December) of a day number. -/
def cfdMonth (z : Int) : Int :=
  if cfdMp z < 10 then cfdMp z + 3 else cfdMp z - 9

/-- Civil year of a day number. -/
def cfdYear (z : Int) : Int :=
  if cfdMonth z ≤ 2 then cfdYoe z + cfdEra z * 400 + 1
  else cfdYoe z + cfdEra z * 400

/-- Civil date `(year, month, day)` of a day number counted from
1970-01-01. -/
def civilFromDays (z : Int) : Int × Int × Int := (cfdYear z, cfdMonth z, cfdDay z)

/-- Day number (counted from 1970-01-01) of a civil date. -/
def daysFromCivil (y m d : Int) : Int :=
  let ys := if m ≤ 2 then y - 1 else y
  let era := ys / 400
  let yoe := ys - era * 400
  let mp := if m ≤ 2 then m + 9 else m - 3
  let doy := (153 * mp + 2) / 5 + d - 1
  let doe := yoe * 365 + yoe / 4 - yoe / 100 + doy
  era * 146097 + doe - 719468

/-- Day of week of a day number: 0 = Sunday … 6 = Saturday
(1970-01-01 was a Thursday). -/
def dayOfWeek (d : Int) : Int := (d + 4) % 7

/-! ## Host timezone model

`Date.prototype.getTimezoneOffset` consults the host environment's
timezone database.  A host timezone is modelled as a function from an
instant to that offset in minutes. -/

/-- A host environment timezone: `offset t` is the value of
`getTimezoneOffset()` (minutes, UTC − local) for a `Date` holding the
instant `t` (seconds since epoch). -/
structure TZ where
  offset : Int → Int

/-- Local clock reading (seconds) of an instant under a host timezone. -/
def localSecs (tz : TZ) (t : Int) : Int := t - 60 * tz.offset t

/-- Models `Date.prototype.getFullYear`: the civil year of the instant's
local clock reading. -/
def getFullYear (tz : TZ) (t : Int) : Int :=
  (civilFromDays (localSecs tz t / 86400)).1

/-- Models the local-time constructor `new Date(year, monthIndex, day)`
(month index 0-based, as in ECMAScript).  The UTC adjustment is taken
from the zone's offset at the nominal local reading, which is exact for
instants away from an offset transition (January 1 and July 1 are, in
every real zone). -/
def mkLocalDate (tz : TZ) (y monthIndex day : Int) : Int :=
  let l := 86400 * daysFromCivil y (monthIndex + 1) day
  l + 60 * tz.offset l

/-! ## America/Chicago rules

Model of the IANA timezone database entry for America/Chicago under the
post-2007 United States DST rule: daylight saving is in force from the
second Sunday of March at 02:00 standard time (08:00 UTC) until the
first Sunday of November at 02:00 daylight time (07:00 UTC).  Standard
offset GMT-6 (`360` minutes), daylight offset GMT-5 (`300` minutes). -/

/-- Day number of the second Sunday of March of a year. -/
def secondSundayMarch (y : Int) : Int :=
  let d0 := daysFromCivil y 3 8
  d0 + (7 - dayOfWeek d0) % 7

/-- Day number of the first Sunday of November of a year. -/
def firstSundayNovember (y : Int) : Int :=
  let d0 := daysFromCivil y 11 1
  d0 + (7 - dayOfWeek d0) % 7

/-- Instant (seconds since epoch) at which DST starts in a year. -/
def chicagoDSTStart (y : Int) : Int :=
  86400 * secondSundayMarch y + 8 * 3600

/-- Instant (seconds since epoch) at which DST ends in a year. -/
def chicagoDSTEnd (y : Int) : Int :=
  86400 * firstSundayNovember y + 7 * 3600

/-- `getTimezoneOffset`-style offset (minutes) of America/Chicago at an
instant.  The UTC year of the instant is the right year to consult: near
a New-Year boundary DST is inactive in both candidate years. -/
def chicagoOffset (t : Int) : Int :=
  let y := (civilFromDays (t / 86400)).1
  if chicagoDSTStart y ≤ t ∧ t < chicagoDSTEnd y then 300 else 360

/-- America/Chicago as a host timezone. -/
def chicagoTZ : TZ := ⟨chicagoOffset⟩

/-- A host running under UTC (`getTimezoneOffset` constantly 0). -/
def utcTZ : TZ := ⟨fun _ => 0⟩

/-! ## `src/libs/database/timezone.ts`

The formatting functions call `Date.prototype.toLocaleString` for the
`en-US` locale with an explicit `timeZone` option; the renderer below
models that ECMA-402 behaviour (component decomposition in the named
zone, resolved through the IANA rules modelled above).  `hour12: false`
is rendered on the `h23` cycle, and the short-time day period is joined
with an ASCII space. -/

/-- `export const TIMEZONE = 'America/Chicago'` (timezone.ts line 9). -/
def TIMEZONE : String := "America/Chicago"

/-- The zone-database lookup performed by `toLocaleString`'s `timeZone`
option: resolves a zone name to its offset (minutes) at an instant. -/
def zoneOffsetMinutes (zone : String) (t : Int) : Int :=
  if zone = "America/Chicago" then chicagoOffset t else 0

/-- Day number of the instant's local reading in a named zone. -/
def localDays (zone : String) (t : Int) : Int :=
  (t - 60 * zoneOffsetMinutes zone t) / 86400

/-- Seconds past local midnight of the instant in a named zone. -/
def localSecondOfDay (zone : String) (t : Int) : Int :=
  (t - 60 * zoneOffsetMinutes zone t) % 86400

/-- Local calendar year of the instant in a named zone. -/
def localYear (zone : String) (t : Int) : Int :=
  (civilFromDays (localDays zone t)).1

/-- Local calendar month (1–12) of the instant in a named zone. -/
def localMonth (zone : String) (t : Int) : Int :=
  (civilFromDays (localDays zone t)).2.1

/-- Local day of month of the instant in a named zone. -/
def localDay (zone : String) (t : Int) : Int :=
  (civilFromDays (localDays zone t)).2.2

/-- Local hour (0–23) of the instant in a named zone. -/
def localHour (zone : String) (t : Int) : Int :=
  localSecondOfDay zone t / 3600

/-- Local minute of the instant in a named zone. -/
def localMinute (zone : String) (t : Int) : Int :=
  localSecondOfDay zone t % 3600 / 60

/-- Local second of the instant in a named zone. -/
def localSecond (zone : String) (t : Int) : Int :=
  localSecondOfDay zone t % 60

/-- ECMA-402 `2-digit` field rendering. -/
def pad2 (n : Int) : String :=
  if n < 10 then "0" ++ toString n else toString n

/-- `toCentralTime` (timezone.ts lines 14–25): `date.toLocaleString`
for `en-US` with `timeZone: TIMEZONE`, all six components `2-digit`
(year `numeric`), `hour12: false`. -/
def toCentralTime (t : Int) : String :=
  pad2 (localMonth TIMEZONE t) ++ "/" ++ pad2 (localDay TIMEZONE t) ++ "/" ++
    toString (localYear TIMEZONE t) ++ ", " ++ pad2 (localHour TIMEZONE t) ++ ":" ++
    pad2 (localMinute TIMEZONE t) ++ ":" ++ pad2 (localSecond TIMEZONE t)

/-- Models the `new Date()` constructor: the current instant, read from
the system clock, independent of any host timezone. -/
def jsNewDate (now : Int) : Int := now

/-- `nowInCentralTime` (timezone.ts lines 30–32): `return new Date()`. -/
def nowInCentralTime (now : Int) : Int := jsNewDate now

/-- `en-US` medium-date month abbreviation. -/
def monthAbbrev (m : Int) : String :=
  if m = 1 then "Jan" else if m = 2 then "Feb" else if m = 3 then "Mar"
  else if m = 4 then "Apr" else if m = 5 then "May" else if m = 6 then "Jun"
  else if m = 7 then "Jul" else if m = 8 then "Aug" else if m = 9 then "Sep"
  else if m = 10 then "Oct" else if m = 11 then "Nov" else "Dec"

/-- 12-hour clock hour for the `en-US` short time style. -/
def hourTwelve (h : Int) : Int := if h % 12 = 0 then 12 else h % 12

/-- `en-US` day-period marker. -/
def dayPeriod (h : Int) : String := if h < 12 then "AM" else "PM"

/-- `formatCentralTime` (timezone.ts lines 37–43): `date.toLocaleString`
for `en-US` with `timeZone: TIMEZONE`, `dateStyle: 'medium'`,
`timeStyle: 'short'`. -/
def formatCentralTime (t : Int) : String :=
  monthAbbrev (localMonth TIMEZONE t) ++ " " ++ toString (localDay TIMEZONE t) ++ ", " ++
    toString (localYear TIMEZONE t) ++ ", " ++
    toString (hourTwelve (localHour TIMEZONE t)) ++ ":" ++
    pad2 (localMinute TIMEZONE t) ++ " " ++ dayPeriod (localHour TIMEZONE t)

/-- `isDST` (timezone.ts lines 48–58).  Note that every offset here is
read through `Date.prototype.getTimezoneOffset`, i.e. from the HOST
environment's timezone `tz`, not from the `TIMEZONE` constant:

    const jan = new Date(date.getFullYear(), 0, 1)
    const jul = new Date(date.getFullYear(), 6, 1)
    const stdOffset = Math.max(jan.getTimezoneOffset(), jul.getTimezoneOffset())
    return date.getTimezoneOffset() < stdOffset
-/
def isDST (tz : TZ) (t : Int) : Bool :=
  let y := getFullYear tz t
  let jan := mkLocalDate tz y 0 1
  let jul := mkLocalDate tz y 6 1
  let stdOffset := max (tz.offset jan) (tz.offset jul)
  decide (tz.offset t < stdOffset)

/-- `getCurrentOffset` (timezone.ts lines 63–66):
`return isDST(date) ? 'GMT-5' : 'GMT-6'` on `new Date()`. -/
def getCurrentOffset (tz : TZ) (now : Int) : String :=
  if isDST tz now then "GMT-5" else "GMT-6"

/-! ## `src/libs/database/index.ts`

The connection initializer.  `process.env.TZ` is modelled as an
`Option String` (absent or present), and the JavaScript `||` fallback
treats the empty string as falsy. -/

/-- `const TIMEZONE = process.env.TZ || 'America/Chicago'`
(index.ts line 10). -/
def dbTIMEZONE (envTZ : Option String) : String :=
  match envTZ with
  | some s => if s = "" then "America/Chicago" else s
  | none => "America/Chicago"

/-- A single-quote character, for the SQL string literal. -/
def sq : String := String.singleton (Char.ofNat 39)

/-- The interpolated template literal sent by the connect listener
(index.ts line 19): `SET timezone = do-TIMEZONE-do` with the zone
wrapped in single quotes. -/
def sessionDirective (envTZ : Option String) : String :=
  "SET timezone = " ++ sq ++ dbTIMEZONE envTZ ++ sq

/-- A statement submitted on one physical connection, tagged with its
provenance: the connect listener's directive or a caller's query. -/
inductive Stmt where
  | directive : String → Stmt
  | caller : String → Stmt
deriving DecidableEq

/-- Recognizes the connect listener's timezone directive. -/
def isTimezoneDirective : Stmt → Bool
  | Stmt.directive _ => true
  | Stmt.caller _ => false

/-- A physical connection: the FIFO queue of statements submitted on it
(node-postgres executes a client's queries strictly in submission
order). -/
structure Client where
  queue : List Stmt
deriving DecidableEq

/-- The `pool.on('connect')` listener (index.ts lines 18–20): it calls
`client.query(...)` with the interpolated directive — fire-and-forget,
with no `await`, no callback and no error handler. -/
def onConnect (envTZ : Option String) (c : Client) : Client :=
  { queue := c.queue ++ [Stmt.directive (sessionDirective envTZ)] }

/-- Models `pool.connect()` in node-postgres for a new physical
connection: the `connect` event listeners run, and the client is then
handed to the waiting acquirer.  The pool does not await the result of
queries submitted by listeners, so the outcome oracle `ok` (which
statements the server accepts) plays no part in whether the client is
handed out. -/
def poolAcquire (ok : Stmt → Bool) (envTZ : Option String) : Option Client :=
  some (onConnect envTZ { queue := [] })

/-- A caller that acquired the connection submits its queries after
whatever is already queued. -/
def useClient (c : Client) (qs : List String) : Client :=
  { queue := c.queue ++ qs.map Stmt.caller }

/-- Executes the connection's queue against the server oracle, pairing
each statement with its outcome.  A failed statement outside a
transaction does not stop the session: later statements still run. -/
def runStatements (ok : Stmt → Bool) (c : Client) : List (Stmt × Bool) :=
  c.queue.map fun s => (s, ok s)

/-- A server that rejects the session timezone directive (as PostgreSQL
does for an invalid zone name) but accepts caller queries. -/
def failingServer : Stmt → Bool
  | Stmt.directive _ => false
  | Stmt.caller _ => true

/-! ## Whole-run wrappers

One process run is parameterized by the `TZ` environment variable.  The
functions of `timezone.ts` never read it — they are closed over the
hard-coded `TIMEZONE` constant — which these wrappers make explicit. -/

/-- `toCentralTime` as observed in a run with the given `TZ` value. -/
def toCentralTimeRun (envTZ : Option String) (t : Int) : String :=
  toCentralTime t

/-- `formatCentralTime` as observed in a run with the given `TZ`. -/
def formatCentralTimeRun (envTZ : Option String) (t : Int) : String :=
  formatCentralTime t

/-- The exported `TIMEZONE` constant as observed in a run with the
given `TZ`. -/
def timezoneConstRun (envTZ : Option String) : String := TIMEZONE

/-! ## Definitions following the spec's words

For the refinement claim about the DST design approach, the winter
baseline is restated the way the spec phrases it, in signed UTC-offset
convention (negative west of UTC). -/

/-- Follows the spec's words: the instant's local UTC offset (signed,
negative west of Greenwich) under a host timezone. -/
def specUtcOffset (tz : TZ) (t : Int) : Int := -(tz.offset t)

/-- Follows the spec's words: the more negative (further-from-UTC for a
western zone) of the UTC offsets observed on the winter reference date
(January 1) and the summer reference date (July 1) of the instant's
calendar year. -/
def specWinterBaseline (tz : TZ) (t : Int) : Int :=
  min (specUtcOffset tz (mkLocalDate tz (getFullYear tz t) 0 1))
      (specUtcOffset tz (mkLocalDate tz (getFullYear tz t) 6 1))

/-! ## Concrete instants -/

/-- The spec's test instant `2025-12-23T21:45:00Z`. -/
def tDec23 : Int := 86400 * daysFromCivil 2025 12 23 + 21 * 3600 + 45 * 60

/-- A mid-summer instant, `2025-07-01T12:00:00Z`. -/
def tJul2025 : Int := 86400 * daysFromCivil 2025 7 1 + 12 * 3600

/-- A mid-winter instant, `2025-01-15T12:00:00Z`. -/
def tJan2025 : Int := 86400 * daysFromCivil 2025 1 15 + 12 * 3600

/-! ## Helper lemmas -/

/-- The month and day produced by `civilFromDays` are a valid calendar
month and day of month. -/
theorem cfd_month_day_bounds (z : Int) :
    1 ≤ cfdMonth z ∧ cfdMonth z ≤ 12 ∧ 1 ≤ cfdDay z ∧ cfdDay z ≤ 31 := by
  unfold cfdMonth cfdDay cfdMp cfdDoy cfdYoe cfdDoe
  split_ifs <;> omega

/-- Local month and day of month are in calendar range. -/
theorem localMonthDay_bounds (zone : String) (t : Int) :
    1 ≤ localMonth zone t ∧ localMonth zone t ≤ 12 ∧
    1 ≤ localDay zone t ∧ localDay zone t ≤ 31 := by
  simpa [localMonth, localDay, civilFromDays] using cfd_month_day_bounds (localDays zone t)

/-- Local hour, minute and second are on a 24-hour clock. -/
theorem localTime_bounds (zone : String) (t : Int) :
    0 ≤ localHour zone t ∧ localHour zone t < 24
    ∧ 0 ≤ localMinute zone t ∧ localMinute zone t < 60
    ∧ 0 ≤ localSecond zone t ∧ localSecond zone t < 60 := by
  unfold localHour localMinute localSecond localSecondOfDay
  generalize t - 60 * zoneOffsetMinutes zone t = l
  omega

/-- A `2-digit` field of a two-digit value renders at width exactly 2. -/
theorem pad2_length {n : Int} (h0 : 0 ≤ n) (h1 : n < 100) :
    (pad2 n).length = 2 := by
  unfold pad2
  split
  · interval_cases n <;> rfl
  · interval_cases n <;> rfl

/-- Arithmetic core of the DST comparison: for nonpositive UTC offsets,
being past the winter baseline is being smaller in magnitude. -/
theorem dst_compare_iff {c j u : Int} (h1 : min (-j) (-u) ≤ 0) (h2 : -c ≤ 0) :
    (c < max j u) ↔ (-c).natAbs < (min (-j) (-u)).natAbs := by omega

/-- A caller's queries contribute no timezone directive to the queue. -/
theorem filter_caller_queries (qs : List String) :
    (qs.map Stmt.caller).filter isTimezoneDirective = [] := by
  induction qs with
  | nil => rfl
  | cons q qs ih => simp [isTimezoneDirective, ih]

/-- Two runs issue the same session directive only when their effective
configured zone names agree. -/
theorem sessionDirective_injective {e1 e2 : Option String}
    (h : sessionDirective e1 = sessionDirective e2) :
    dbTIMEZONE e1 = dbTIMEZONE e2 := by
  unfold sessionDirective at h
  have hd := congrArg String.data h
  simp only [String.data_append] at hd
  exact String.ext (List.append_cancel_left (List.append_cancel_right hd))

/-! ## Claim theorems -/

/-- C1: the claim states that `isDST` decides daylight saving for the
target zone America/Chicago.  The code instead reads every offset from
the HOST environment's timezone via `getTimezoneOffset`.  On a host
running under UTC, `isDST` returns `false` at a mid-summer 2025 instant
even though America/Chicago's offset there (GMT-5, 300 minutes) differs
from its winter standard offset (GMT-6, 360 minutes), so the claimed
biconditional fails; it does hold on the reference examples when the
host zone happens to be America/Chicago itself. -/
theorem c1_isDST_reads_host_zone :
    chicagoTZ.offset tJul2025 = 300 ∧ (300 : Int) ≠ 360
    ∧ isDST utcTZ tJul2025 = false
    ∧ isDST chicagoTZ tJul2025 = true ∧ isDST chicagoTZ tJan2025 = false := by
  exact ⟨by decide, by decide, by decide, by decide, by decide⟩

/-- C2: the claim states that a failed `SET timezone` directive makes
connection creation fail and the pool never hands the connection out.
In the code the directive is submitted fire-and-forget inside the
`connect` listener (no await, no error handler), so even against a
server that rejects the directive the pool still hands the client to
the acquirer, and the caller's subsequent queries run on the untimezoned
session. -/
theorem c2_pool_hands_out_failed_connection :
    (poolAcquire failingServer (some "Invalid/Zone")).isSome = true
    ∧ failingServer (Stmt.directive (sessionDirective (some "Invalid/Zone"))) = false
    ∧ (poolAcquire failingServer (some "Invalid/Zone")).map
        (fun c => runStatements failingServer (useClient c ["SELECT 1"]))
      = some [(Stmt.directive (sessionDirective (some "Invalid/Zone")), false),
              (Stmt.caller "SELECT 1", true)] := by
  exact ⟨rfl, rfl, rfl⟩

/-- C3: every new physical connection carries exactly one session
timezone directive, enqueued at connection-creation time ahead of every
caller query, and the directive is the configured zone name
string-interpolated into the `SET timezone` statement. -/
theorem c3_directive_once_and_first (envTZ : Option String) (qs : List String) :
    (onConnect envTZ { queue := [] }).queue = [Stmt.directive (sessionDirective envTZ)]
    ∧ (useClient (onConnect envTZ { queue := [] }) qs).queue
        = Stmt.directive (sessionDirective envTZ) :: qs.map Stmt.caller
    ∧ (useClient (onConnect envTZ { queue := [] }) qs).queue.filter isTimezoneDirective
        = [Stmt.directive (sessionDirective envTZ)]
    ∧ sessionDirective envTZ = "SET timezone = " ++ sq ++ dbTIMEZONE envTZ ++ sq := by
  refine ⟨rfl, by simp [useClient, onConnect], ?_, rfl⟩
  simp [useClient, onConnect, isTimezoneDirective, filter_caller_queries]

/-- C4: `getCurrentOffset` returns exactly one of the literals
`"GMT-6"` and `"GMT-5"`, chosen by evaluating `isDST` on the current
instant: `"GMT-5"` when it is true, `"GMT-6"` otherwise. -/
theorem c4_offset_label (tz : TZ) (now : Int) :
    (getCurrentOffset tz now = "GMT-5" ∨ getCurrentOffset tz now = "GMT-6")
    ∧ (getCurrentOffset tz now = "GMT-5" ↔ isDST tz now = true)
    ∧ (getCurrentOffset tz now = "GMT-6" ↔ isDST tz now = false) := by
  have hne : ("GMT-5" : String) ≠ "GMT-6" := by decide
  cases hb : isDST tz now with
  | true =>
    have hg : getCurrentOffset tz now = "GMT-5" := by simp [getCurrentOffset, hb]
    refine ⟨Or.inl hg, ⟨fun _ => rfl, fun _ => hg⟩, ?_, ?_⟩
    · intro h6; exact absurd (hg.symm.trans h6) hne
    · intro h; exact absurd h (by decide)
  | false =>
    have hg : getCurrentOffset tz now = "GMT-6" := by simp [getCurrentOffset, hb]
    refine ⟨Or.inr hg, ⟨?_, ?_⟩, fun _ => rfl, fun _ => hg⟩
    · intro h5; exact absurd (h5.symm.trans hg) hne
    · intro h; exact absurd h (by decide)

/-- C5: `formatCentralTime` renders the instant `2025-12-23T21:45:00Z`
in the target zone with the en-US medium date / short time style as
`"Dec 23, 2025, 3:45 PM"` — no timezone abbreviation in the string. -/
theorem c5_format_human_readable :
    formatCentralTime tDec23 = "Dec 23, 2025, 3:45 PM" := by decide

/-- C6: `toCentralTime` renders instants in the target zone in the
fixed-width `MM/DD/YYYY, HH:MM:SS` 24-hour format: on the reference
instant it yields `"12/23/2025, 15:45:00"`; for every instant the
clock components are on the 24-hour clock, every `2-digit` field
renders at width 2, and the output is exactly the
`MM/DD/YYYY, HH:MM:SS` template over the instant's local civil
components. -/
theorem c6_full_timestamp_format :
    toCentralTime tDec23 = "12/23/2025, 15:45:00"
    ∧ (∀ t : Int,
        0 ≤ localHour TIMEZONE t ∧ localHour TIMEZONE t < 24
        ∧ 0 ≤ localMinute TIMEZONE t ∧ localMinute TIMEZONE t < 60
        ∧ 0 ≤ localSecond TIMEZONE t ∧ localSecond TIMEZONE t < 60)
    ∧ (∀ t : Int,
        (pad2 (localMonth TIMEZONE t)).length = 2
        ∧ (pad2 (localDay TIMEZONE t)).length = 2
        ∧ (pad2 (localHour TIMEZONE t)).length = 2
        ∧ (pad2 (localMinute TIMEZONE t)).length = 2
        ∧ (pad2 (localSecond TIMEZONE t)).length = 2)
    ∧ (∀ t : Int, toCentralTime t =
        pad2 (localMonth TIMEZONE t) ++ "/" ++ pad2 (localDay TIMEZONE t) ++ "/" ++
          toString (localYear TIMEZONE t) ++ ", " ++ pad2 (localHour TIMEZONE t) ++ ":" ++
          pad2 (localMinute TIMEZONE t) ++ ":" ++ pad2 (localSecond TIMEZONE t)) := by
  refine ⟨by decide, fun t => localTime_bounds TIMEZONE t, fun t => ?_, fun t => rfl⟩
  obtain ⟨hm1, hm2, hd1, hd2⟩ := localMonthDay_bounds TIMEZONE t
  obtain ⟨hh1, hh2, hmi1, hmi2, hs1, hs2⟩ := localTime_bounds TIMEZONE t
  exact ⟨pad2_length (by omega) (by omega), pad2_length (by omega) (by omega),
    pad2_length (by omega) (by omega), pad2_length (by omega) (by omega),
    pad2_length (by omega) (by omega)⟩

/-- C7: `isDST` compares the instant's offset against the more negative
of the two offsets observed on the January 1 and July 1 reference dates
of the instant's calendar year, and (whenever those offsets are on the
western side of UTC, as for the Central reference zone) returns true
exactly when the instant's offset is smaller in magnitude than that
standard baseline. -/
theorem c7_reference_date_comparison (tz : TZ) (t : Int)
    (h1 : specWinterBaseline tz t ≤ 0) (h2 : specUtcOffset tz t ≤ 0) :
    isDST tz t = true ↔
      (specUtcOffset tz t).natAbs < (specWinterBaseline tz t).natAbs := by
  unfold specWinterBaseline specUtcOffset at *
  show decide (tz.offset t <
      max (tz.offset (mkLocalDate tz (getFullYear tz t) 0 1))
          (tz.offset (mkLocalDate tz (getFullYear tz t) 6 1))) = true ↔ _
  rw [decide_eq_true_iff]
  exact dst_compare_iff h1 h2

/-- Witness for C7 at the host zone America/Chicago and the mid-summer
2025 instant: both hypotheses hold and the biconditional is inhabited. -/
theorem c7_reference_date_comparison_witness :
    specWinterBaseline chicagoTZ tJul2025 ≤ 0
    ∧ specUtcOffset chicagoTZ tJul2025 ≤ 0
    ∧ (isDST chicagoTZ tJul2025 = true ↔
        (specUtcOffset chicagoTZ tJul2025).natAbs <
          (specWinterBaseline chicagoTZ tJul2025).natAbs) :=
  ⟨by decide, by decide,
    c7_reference_date_comparison chicagoTZ tJul2025 (by decide) (by decide)⟩

/-- C8: the timezone utilities are pure: repeated calls on the same
instant return identical outputs and no call mutates anything, while
`getCurrentOffset` alone is a function of the wall clock — it changes
across a DST boundary. -/
theorem c8_purity_and_determinism :
    (∀ (n : Nat) (t : Int),
        (List.replicate n t).map toCentralTime = List.replicate n (toCentralTime t)
      ∧ (List.replicate n t).map formatCentralTime
          = List.replicate n (formatCentralTime t))
    ∧ (∀ (tz : TZ) (n : Nat) (t : Int),
        (List.replicate n t).map (isDST tz) = List.replicate n (isDST tz t))
    ∧ (∀ (tz : TZ) (n : Nat) (now : Int),
        (List.replicate n now).map (getCurrentOffset tz)
          = List.replicate n (getCurrentOffset tz now))
    ∧ getCurrentOffset chicagoTZ tJan2025 ≠ getCurrentOffset chicagoTZ tJul2025 := by
  exact ⟨fun n t => ⟨List.map_replicate, List.map_replicate⟩,
    fun tz n t => List.map_replicate,
    fun tz n now => List.map_replicate, by decide⟩

/-- C9 counterexample: two runs that differ only in the `TZ`
environment variable (`TZ=America/Chicago` versus `TZ` unset) issue the
SAME session directive, against the claim that such runs issue
different directives; their formatting outputs agree, as claimed. -/
theorem c9_differing_tz_same_directive :
    (some "America/Chicago" : Option String) ≠ none
    ∧ sessionDirective (some "America/Chicago") = sessionDirective none
    ∧ toCentralTimeRun (some "America/Chicago") tDec23 = toCentralTimeRun none tDec23
    ∧ formatCentralTimeRun (some "America/Chicago") tDec23
        = formatCentralTimeRun none tDec23 := by
  exact ⟨by decide, rfl, rfl, rfl⟩

/-- C9 (amended): the `TZ` override never changes the formatting
functions' outputs or the exported `TIMEZONE` constant, and two runs
issue different session directives exactly when their effective
configured zone names differ. -/
theorem c9_tz_noninterference (e1 e2 : Option String) (t : Int) :
    toCentralTimeRun e1 t = toCentralTimeRun e2 t
    ∧ formatCentralTimeRun e1 t = formatCentralTimeRun e2 t
    ∧ timezoneConstRun e1 = "America/Chicago"
    ∧ (sessionDirective e1 = sessionDirective e2 ↔ dbTIMEZONE e1 = dbTIMEZONE e2) := by
  refine ⟨rfl, rfl, rfl, fun h => sessionDirective_injective h, fun h => ?_⟩
  unfold sessionDirective
  rw [h]

/-- C10: `nowInCentralTime` performs no timezone conversion: it returns
exactly the current instant as a fresh `Date` would, and in particular
does not shift the instant by the Central offset. -/
theorem c10_now_is_identity :
    (∀ now : Int, nowInCentralTime now = now ∧ nowInCentralTime now = jsNewDate now)
    ∧ nowInCentralTime tDec23 ≠ tDec23 - 60 * chicagoOffset tDec23 := by
  exact ⟨fun now => ⟨rfl, rfl⟩, by decide⟩

end CcardFinder
